import Mathlib

/-!
Verification of `cocaine/tools/tools.py` (cocaine-framework-python tools module).

The Python source is shallowly embedded below.  Python strings handled by the
crashlog machinery are modelled as `List Char` (so that `str.split(':')` can be
reasoned about by induction); configuration dictionaries become structures of
`Option` fields (a missing key is `none`, and Python truthiness of a string is
"present and nonempty"); msgpack-serialized payloads become an inductive
`MsgBytes`; remote calls are recorded as descriptor values instead of being
performed.  The asynchronous delivery contract of the framework's futures
(`cocaine.futures`, `cocaine.services` — not part of this module) is modelled
from the specification: a future delivers zero or more data chunks, at most one
error, and exactly one completion event, the completion always last.
-/

/-! ## Python `str.split` on a single separator character -/

/-- Core of Python's `str.split(sep)` for a one-character separator: returns
the first segment and the list of remaining segments. -/
def splitCharCore (c : Char) : List Char → List Char × List (List Char)
  | [] => ([], [])
  | x :: xs =>
    if x = c then ([], (splitCharCore c xs).1 :: (splitCharCore c xs).2)
    else (x :: (splitCharCore c xs).1, (splitCharCore c xs).2)

/-- Python's `s.split(c)`: the list of separator-free segments of `s`.
`pySplit ':' "a:b" = ["a", "b"]`, `pySplit ':' "" = [""]`. -/
def pySplit (c : Char) (s : List Char) : List (List Char) :=
  (splitCharCore c s).1 :: (splitCharCore c s).2

/-! ## `parseCrashlogs` (tools.py lines 281-284) -/

/-- Python truthiness of an optional string: `None` and `''` are falsy. -/
def truthyL : Option (List Char) → Bool
  | none => false
  | some l => decide (l ≠ [])

/-- The filter `flt = lambda x: (x == timestamp if timestamp else True)`. -/
def flt (timestamp : Option (List Char)) (x : List Char) : Bool :=
  match timestamp with
  | none => true
  | some t => if t = [] then true else decide (x = t)

/-- One parsed crashlog entry `(ts, ctime(float(ts) / 1000000), name)`.
The human-readable display string is produced by an opaque `ctime` collaborator
passed as a parameter of the model. -/
structure CrashlogEntry where
  ts : List Char
  display : List Char
  name : List Char
deriving DecidableEq, Repr

/-- The generator `(log.split(':') for log in crashlogs)` consumed by tuple
unpacking `for ts, name in _list`: every line must split into exactly two
segments, otherwise a `ValueError` escapes. -/
def splitPairs : List (List Char) → Except String (List (List Char × List Char))
  | [] => Except.ok []
  | log :: rest =>
    match pySplit ':' log with
    | [ts, n] =>
      match splitPairs rest with
      | Except.ok ps => Except.ok ((ts, n) :: ps)
      | Except.error e => Except.error e
    | _ => Except.error "ValueError"

/-- `parseCrashlogs(crashlogs, timestamp=None)`: split each line on `':'`,
keep the lines whose timestamp passes the filter, and build
`(ts, ctime(ts), name)` triples. -/
def parseCrashlogs (ctime : List Char → List Char) (timestamp : Option (List Char))
    (crashlogs : List (List Char)) : Except String (List CrashlogEntry) :=
  match splitPairs crashlogs with
  | Except.error e => Except.error e
  | Except.ok pairs =>
    Except.ok ((pairs.filter (fun p => flt timestamp p.1)).map
      (fun p => ⟨p.1, ctime p.1, p.2⟩))

/-! ## The fan-in coordinator
(`CrashlogViewOrRemoveAction.execute`'s inner `Future`, tools.py lines 296-336)

The inner `Future` binds to the upstream `storage.find` future and, per listed
entry, issues one secondary `read`/`remove` call whose callback and errorback
are wrapped by `countable` (decrement `messagesLeft`, fire `doneback` when it
reaches zero) and whose own completion event is bound to `self.doneback`
directly.  We model a run as a fold of delivery events over the coordinator
state, counting every invocation of the bound callbacks. -/

/-- A secondary storage operation issued by the coordinator:
`getattr(storage, method)('crashlogs', key)`. -/
structure SecOp where
  method : String
  ns : String
  key : List Char
deriving DecidableEq, Repr

/-- Observable coordinator state: the `messagesLeft` counter (a Python int,
so it may in principle go below zero), the secondary operations issued so far,
and how many times each bound handler has been invoked. -/
structure CoordState where
  messagesLeft : Int
  issued : List SecOp
  donebacks : Nat
  errorbacks : Nat
  callbacks : Nat
  raised : Bool
deriving DecidableEq, Repr

/-- Delivery events driving the coordinator: the upstream future's chunk,
error and completion events, and — for the secondary futures — a data chunk, an
error, or the secondary future's own completion event. -/
inductive CoordEv where
  | upChunk (c : List (List Char))
  | upError
  | upDone
  | secCallback
  | secErrorback
  | secDone
deriving DecidableEq, Repr

/-- Initial coordinator state (`self.messagesLeft = 0`). -/
def coordInit : CoordState :=
  { messagesLeft := 0, issued := [], donebacks := 0, errorbacks := 0,
    callbacks := 0, raised := false }

/-- One delivery step of the coordinator.  `upChunk` is `onChunk`: parse and
filter the listing, set `messagesLeft`, fire `doneback` right away when the
filtered list is empty, and issue one secondary operation per entry with key
`"%s:%s" % (crashlog[0], crashlog[2])`.  `secCallback`/`secErrorback` are the
`countable`-wrapped handlers of a secondary future: invoke the underlying
handler, decrement `messagesLeft`, and fire `doneback` when it hits zero.
`secDone` is a secondary future's completion, bound to `self.doneback`.
`upError` is `onError` (errorback then doneback) and `upDone` is `onDone`. -/
def coordStep (ctime : List Char → List Char) (timestamp : Option (List Char))
    (method : String) (s : CoordState) : CoordEv → CoordState
  | CoordEv.upChunk c =>
    match parseCrashlogs ctime timestamp c with
    | Except.error _ => { s with raised := true }
    | Except.ok logs =>
      { s with
        messagesLeft := (logs.length : Int),
        issued := s.issued ++ logs.map (fun e => ⟨method, "crashlogs", e.ts ++ ':' :: e.name⟩),
        donebacks := s.donebacks + (if logs.length = 0 then 1 else 0) }
  | CoordEv.upError =>
    { s with errorbacks := s.errorbacks + 1, donebacks := s.donebacks + 1 }
  | CoordEv.upDone =>
    { s with donebacks := s.donebacks + 1 }
  | CoordEv.secCallback =>
    { s with
      callbacks := s.callbacks + 1,
      messagesLeft := s.messagesLeft - 1,
      donebacks := s.donebacks + (if s.messagesLeft - 1 = 0 then 1 else 0) }
  | CoordEv.secErrorback =>
    { s with
      errorbacks := s.errorbacks + 1,
      messagesLeft := s.messagesLeft - 1,
      donebacks := s.donebacks + (if s.messagesLeft - 1 = 0 then 1 else 0) }
  | CoordEv.secDone =>
    { s with donebacks := s.donebacks + 1 }

/-- A full coordinator run over a sequence of delivery events. -/
def coordRun (ctime : List Char → List Char) (timestamp : Option (List Char))
    (method : String) (evs : List CoordEv) : CoordState :=
  evs.foldl (coordStep ctime timestamp method) coordInit

/-- A concrete stand-in for the `ctime` display collaborator, used to
instantiate the model at concrete inputs. -/
def ct0 : List Char → List Char := fun l => l

/-- Timestamp literal `"100"`. -/
def ts100 : List Char := ['1', '0', '0']

/-- Timestamp literal `"200"`. -/
def ts200 : List Char := ['2', '0', '0']

/-- Timestamp literal `"300"`. -/
def ts300 : List Char := ['3', '0', '0']

/-! ## Python values and dictionary lookup

`node.info()` snapshots and config dictionaries indexed inside `try` blocks
are modelled as an inductive of strings and string-keyed dictionaries;
indexing a non-dictionary raises `TypeError`, a missing key raises
`KeyError`. -/

/-- A Python value as far as this module inspects it: a string or a
string-keyed dictionary. -/
inductive PyVal where
  | str (s : String)
  | dict (entries : List (String × PyVal))

/-- Python exceptions distinguished by the `except` clauses of this module. -/
inductive PyErr where
  | keyError
  | typeError
deriving DecidableEq, Repr

/-- Dictionary lookup (`d[k]` on the entry list, first match). -/
def pyLookup : List (String × PyVal) → String → Option PyVal
  | [], _ => none
  | (k, v) :: rest, key => if k = key then some v else pyLookup rest key

/-- Python subscription `v[k]`: `KeyError` on a missing key, `TypeError` when
`v` is not a dictionary. -/
def pyIndex : PyVal → String → Except PyErr PyVal
  | PyVal.dict es, k =>
    match pyLookup es k with
    | some v => Except.ok v
    | none => Except.error PyErr.keyError
  | PyVal.str _, _ => Except.error PyErr.typeError

/-- Python truthiness of a value: the empty string and the empty dictionary
are falsy. -/
def truthyVal : PyVal → Bool
  | PyVal.str s => decide (s ≠ "")
  | PyVal.dict [] => false
  | PyVal.dict (_ :: _) => true

/-! ## Action construction (parameter validation in the `__init__` methods)

A `config` keyword dictionary becomes a structure of optional fields; each
constructor returns `Except.error msg` exactly where the Python `__init__`
raises `ValueError(msg)`, and otherwise the validated attribute values. -/

/-- Python truthiness of `config.get(key)` for a string-valued key:
a missing key (`None`) and the empty string are falsy. -/
def truthy : Option String → Bool
  | none => false
  | some s => decide (s ≠ "")

/-- Python truthiness of the `runlist-raw` value (a dictionary):
missing or empty is falsy. -/
def truthyRaw : Option (List (String × String)) → Bool
  | none => false
  | some l => decide (l ≠ [])

/-- The `**config` keyword arguments consumed by the Action constructors. -/
structure Config where
  name : Option String := none
  manifest : Option String := none
  package : Option String := none
  profile : Option String := none
  app : Option String := none
  runlistRaw : Option (List (String × String)) := none
  host : Option String := none
  port : Option String := none

/-- `AppViewAction.__init__`: requires a nonempty `name`. -/
def mkAppViewAction (cfg : Config) : Except String String :=
  if truthy cfg.name then Except.ok (cfg.name.getD "")
  else Except.error "Specify name of application"

/-- `AppUploadAction.__init__`: requires `name`, `manifest` and `package`. -/
def mkAppUploadAction (cfg : Config) : Except String (String × String × String) :=
  if truthy cfg.name then
    if truthy cfg.manifest then
      if truthy cfg.package then
        Except.ok (cfg.name.getD "", cfg.manifest.getD "", cfg.package.getD "")
      else Except.error "Please specify package of the app"
    else Except.error "Please specify manifest of the app"
  else Except.error "Please specify name of the app"

/-- `AppRemoveAction.__init__`: requires a nonempty `name`. -/
def mkAppRemoveAction (cfg : Config) : Except String String :=
  if truthy cfg.name then Except.ok (cfg.name.getD "")
  else Except.error "Empty application name"

/-- `ProfileUploadAction.__init__` (via `SpecificProfileAction`): requires
`name` and then the profile file path passed under the `manifest` key. -/
def mkProfileUploadAction (cfg : Config) : Except String (String × String) :=
  if truthy cfg.name then
    if truthy cfg.manifest then Except.ok (cfg.name.getD "", cfg.manifest.getD "")
    else Except.error "Please specify profile file path"
  else Except.error "Please specify profile name"

/-- `RunlistUploadAction.__init__` (via `SpecificRunlistAction`): requires
`name` and `any([manifest, runlist-raw])`. -/
def mkRunlistUploadAction (cfg : Config) :
    Except String (String × Option String × Option (List (String × String))) :=
  if truthy cfg.name then
    if truthy cfg.manifest || truthyRaw cfg.runlistRaw then
      Except.ok (cfg.name.getD "", cfg.manifest, cfg.runlistRaw)
    else Except.error "Please specify runlist profile file path"
  else Except.error "Please specify runlist name"

/-- `AddApplicationToRunlistAction.__init__`: requires `name`, `app` and
`profile`. -/
def mkAddApplicationToRunlistAction (cfg : Config) :
    Except String (String × String × String) :=
  if truthy cfg.name then
    if truthy cfg.app then
      if truthy cfg.profile then
        Except.ok (cfg.name.getD "", cfg.app.getD "", cfg.profile.getD "")
      else Except.error "Please specify profile"
    else Except.error "Please specify application name"
  else Except.error "Please specify runlist name"

/-- The validated attributes of a `CrashlogViewOrRemoveAction`:
`self.name`, `self.timestamp = config.get('manifest')` and the storage method
name picked by `getattr`. -/
structure CrashlogActionS where
  name : String
  timestamp : Option String
  method : String
deriving DecidableEq, Repr

/-- `CrashlogViewOrRemoveAction.__init__`: stores the optional timestamp from
the `manifest` key and requires a nonempty `name`. -/
def mkCrashlogViewOrRemoveAction (method : String) (cfg : Config) :
    Except String CrashlogActionS :=
  if truthy cfg.name then Except.ok ⟨cfg.name.getD "", cfg.manifest, method⟩
  else Except.error "Please specify name"

/-- `CrashlogRemoveAllAction.__init__`: overwrites `config['manifest']` with
`None` and delegates to `CrashlogViewOrRemoveAction` with method `'remove'`. -/
def mkCrashlogRemoveAllAction (cfg : Config) : Except String CrashlogActionS :=
  mkCrashlogViewOrRemoveAction "remove" { cfg with manifest := none }

/-- `AppStartAction.__init__`: requires `name` and `profile`. -/
def mkAppStartAction (cfg : Config) : Except String (String × String) :=
  if truthy cfg.name then
    if truthy cfg.profile then Except.ok (cfg.name.getD "", cfg.profile.getD "")
    else Except.error "Please specify profile name"
  else Except.error "Please specify application name"

/-- `AppPauseAction.__init__`: requires a nonempty `name`. -/
def mkAppPauseAction (cfg : Config) : Except String String :=
  if truthy cfg.name then Except.ok (cfg.name.getD "")
  else Except.error "Please specify application name"

/-- `True` exactly when the construction succeeded (no `ValueError`). -/
def isSuccess {ε α : Type} : Except ε α → Bool
  | Except.ok _ => true
  | Except.error _ => false

/-! ## `AppRestartAction.doAction` (tools.py lines 411-427)

The chain generator is embedded as a function of the validated parameters, the
two `config` keys it subscripts, and the outcomes the remote futures would
resolve to.  Every `yield` of a future either resumes with the resolved value
or raises the remote error at the yield point; `except KeyError` translates to
the "not running and profile not specified" `ToolsError`, every other
exception to the "Unknown error" `ToolsError`.  The remote calls issued before
the failure point are recorded. -/

/-- A call issued to the node service during the restart chain. -/
inductive RestartCall where
  | infoCall
  | pauseCall (names : List String)
  | startCall (apps : List (String × PyVal))

/-- The error type of the restart chain: the generator converts every failure
into a `ToolsError` with a message. -/
inductive RestartErr where
  | toolsError (msg : String)

/-- Outcomes of the collaborator futures consumed by the restart chain, plus
the `host`/`port` entries of the surrounding config. -/
structure RestartEnv where
  host : Option String
  port : Option String
  infoRes : Except String PyVal
  pauseRes : Except String PyVal
  startRes : Except String PyVal

/-- `'Application "{0}" is not running and profile not specified'`. -/
def notRunningMsg (name : String) : String :=
  "Application \"" ++ name ++ "\" is not running and profile not specified"

/-- `info['apps'][self.name]['profile']`. -/
def lookupProfile (info : PyVal) (name : String) : Except PyErr PyVal :=
  match pyIndex info "apps" with
  | Except.error e => Except.error e
  | Except.ok apps =>
    match pyIndex apps name with
    | Except.error e => Except.error e
    | Except.ok app => pyIndex app "profile"

/-- Continuation of `doAction` after the profile has been resolved: pause the
application, build `appStartConfig` from `self.config['host']` and
`self.config['port']` (a missing key raises `KeyError`, caught as the
"not running" `ToolsError`), construct `AppStartAction` (which raises
`ValueError` on a falsy profile, caught as an unknown error) and start. -/
def doActionRest (name : String) (prof : PyVal) (env : RestartEnv) :
    List RestartCall × Except RestartErr Unit :=
  match env.pauseRes with
  | Except.error e =>
    ([RestartCall.infoCall, RestartCall.pauseCall [name]],
     Except.error (RestartErr.toolsError ("Unknown error - " ++ e)))
  | Except.ok _ =>
    match env.host, env.port with
    | none, _ =>
      ([RestartCall.infoCall, RestartCall.pauseCall [name]],
       Except.error (RestartErr.toolsError (notRunningMsg name)))
    | some _, none =>
      ([RestartCall.infoCall, RestartCall.pauseCall [name]],
       Except.error (RestartErr.toolsError (notRunningMsg name)))
    | some _, some _ =>
      if truthyVal prof then
        match env.startRes with
        | Except.error e =>
          ([RestartCall.infoCall, RestartCall.pauseCall [name],
            RestartCall.startCall [(name, prof)]],
           Except.error (RestartErr.toolsError ("Unknown error - " ++ e)))
        | Except.ok _ =>
          ([RestartCall.infoCall, RestartCall.pauseCall [name],
            RestartCall.startCall [(name, prof)]], Except.ok ())
      else
        ([RestartCall.infoCall, RestartCall.pauseCall [name]],
         Except.error (RestartErr.toolsError "Unknown error - Please specify profile name"))

/-- `AppRestartAction.doAction`: fetch the status snapshot, resolve
`profile = self.profile or info['apps'][self.name]['profile']` (a `KeyError`
is translated to the "not running and profile not specified" `ToolsError`,
any other exception to an "Unknown error" `ToolsError`), then pause and
start.  Returns the node calls issued and the chain outcome. -/
def doAction (name : String) (profile : Option String) (env : RestartEnv) :
    List RestartCall × Except RestartErr Unit :=
  match env.infoRes with
  | Except.error e =>
    ([RestartCall.infoCall],
     Except.error (RestartErr.toolsError ("Unknown error - " ++ e)))
  | Except.ok info =>
    match (if truthy profile then Except.ok (PyVal.str (profile.getD ""))
           else lookupProfile info name) with
    | Except.error PyErr.keyError =>
      ([RestartCall.infoCall],
       Except.error (RestartErr.toolsError (notRunningMsg name)))
    | Except.error PyErr.typeError =>
      ([RestartCall.infoCall],
       Except.error (RestartErr.toolsError "Unknown error - TypeError"))
    | Except.ok prof => doActionRest name prof env

/-! ## `AppCheckAction.execute` (tools.py lines 437-464) -/

/-- What the inner `Future` of `AppCheckAction` does on one status chunk:
the dictionaries passed to the bound callback, the number of errorback
invocations, and whether a non-`KeyError` exception escaped `onChunk`. -/
structure AppCheckOutcome where
  callbackCalls : List (List (String × PyVal))
  errorbackCalls : Nat
  raised : Bool

/-- The `try` body of `AppCheckAction`'s `onChunk`:
`chunk['apps'][self.action.name]['state']`. -/
def appCheckAttempt (name : String) (chunk : PyVal) : Except PyErr PyVal :=
  match pyIndex chunk "apps" with
  | Except.error e => Except.error e
  | Except.ok apps =>
    match pyIndex apps name with
    | Except.error e => Except.error e
    | Except.ok app => pyIndex app "state"

/-- `AppCheckAction`'s `onChunk`: look the state up, defaulting to
`'stopped or missing'` on `KeyError`; the `finally` clause invokes the bound
callback with the one-entry dictionary `{name: state}` in every case, and a
non-`KeyError` exception propagates after that. -/
def appCheckOnChunk (name : String) (chunk : PyVal) : AppCheckOutcome :=
  match appCheckAttempt name chunk with
  | Except.ok st => ⟨[[(name, st)]], 0, false⟩
  | Except.error PyErr.keyError => ⟨[[(name, PyVal.str "stopped or missing")]], 0, false⟩
  | Except.error PyErr.typeError => ⟨[[(name, PyVal.str "stopped or missing")]], 0, true⟩

/-! ## Upload actions: encoding and remote writes
(`StorageAction.encodeJson`, `AppUploadAction`, `ProfileUploadAction`) -/

/-- The tag tuples of the module. -/
def APPS_TAGS : List String := ["app"]

/-- Runlist tag tuple. -/
def RUNLISTS_TAGS : List String := ["runlist"]

/-- Profile tag tuple. -/
def PROFILES_TAGS : List String := ["profile"]

/-- A msgpack-encoded payload, as far as this module distinguishes payloads:
a packed runlist dictionary, packed json data, a packed archive blob. -/
inductive MsgBytes where
  | packedRunlist (r : List (String × String))
  | packedJson (d : String)
  | packedBlob (d : String)
deriving DecidableEq, Repr

/-- The relevant states of a json source file: unreadable (`IOError`), not
parseable as json (`ValueError`), or valid with some content. -/
inductive JsonFile where
  | unreadable
  | invalid
  | valid (data : String)
deriving DecidableEq, Repr

/-- The relevant states of a package file: unreadable (`IOError` from
`tarfile.is_tarfile` or `open`), not a tar archive, or a valid archive. -/
inductive PkgFile where
  | unreadable
  | notTar
  | tar (data : String)
deriving DecidableEq, Repr

/-- The `CocaineError` raised when encoding a payload fails. -/
structure CocaineError where
  msg : String
deriving DecidableEq, Repr

/-- A `storage.write(namespace, key, payload, tags)` call. -/
structure WriteCall where
  ns : String
  key : String
  payload : MsgBytes
  tags : List String
deriving DecidableEq, Repr

/-- `StorageAction.encodeJson`: read the file and msgpack-pack the parsed
json; `IOError` and `ValueError` are translated to `CocaineError`. -/
def encodeJson (filename : String) : JsonFile → Except CocaineError MsgBytes
  | JsonFile.unreadable => Except.error ⟨"Unable to open file - IOError"⟩
  | JsonFile.invalid => Except.error ⟨"File \"" ++ filename ++ "\" is corrupted - ValueError"⟩
  | JsonFile.valid d => Except.ok (MsgBytes.packedJson d)

/-- `AppUploadAction.encodePackage`: reject non-tar files with a
`CocaineError`, translate `IOError` to a `CocaineError`, and msgpack-pack the
archive bytes otherwise. -/
def encodePackage (package : String) : PkgFile → Except CocaineError MsgBytes
  | PkgFile.notTar => Except.error ⟨"File \"" ++ package ++ "\" is ot tar file"⟩
  | PkgFile.unreadable =>
    Except.error ⟨"Error occurred while reading archive file \"" ++ package ++ "\" - IOError"⟩
  | PkgFile.tar d => Except.ok (MsgBytes.packedBlob d)

/-- `AppUploadAction.execute`: encode the manifest, then the package, and only
if both succeed issue the two `storage.write` calls.  Returns the writes
issued and the outcome. -/
def appUploadExecute (name manifestPath packagePath : String)
    (mf : JsonFile) (pf : PkgFile) : List WriteCall × Except CocaineError Unit :=
  match encodeJson manifestPath mf with
  | Except.error e => ([], Except.error e)
  | Except.ok m =>
    match encodePackage packagePath pf with
    | Except.error e => ([], Except.error e)
    | Except.ok p =>
      ([⟨"manifests", name, m, APPS_TAGS⟩, ⟨"apps", name, p, APPS_TAGS⟩], Except.ok ())

/-- `ProfileUploadAction.execute`: encode the profile file and, if that
succeeds, issue the single `storage.write` call. -/
def profileUploadExecute (name profilePath : String) (pf : JsonFile) :
    List WriteCall × Except CocaineError Unit :=
  match encodeJson profilePath pf with
  | Except.error e => ([], Except.error e)
  | Except.ok d => ([⟨"profiles", name, d, PROFILES_TAGS⟩], Except.ok ())

/-! ## The `ChainFactory` combinator and `AddApplicationToRunlistAction`
(tools.py lines 236-266)

`cocaine.futures.chain.ChainFactory` is not part of this module; per the
specification it runs an ordered list of steps, feeds each step the previous
step's resolved value, and short-circuits on the first error.  Steps exchange
dynamically typed values, modelled by `CVal`; a step that returns a storage
future is modelled as resolving to that future's value. -/

/-- A dynamically typed value flowing between chain steps. -/
inductive CVal where
  | unitV
  | bytes (b : MsgBytes)
  | runlist (r : List (String × String))
  | writeAck (w : WriteCall)
deriving DecidableEq, Repr

/-- Modelled from the spec: a `ChainFactory` chain is the ordered list of its
steps; each step maps the previous resolved value to the next one or to an
error. -/
abbrev ChainModel : Type := List (CVal → Except String CVal)

/-- `ChainFactory()`: the empty chain. -/
def chainFactory : ChainModel := []

/-- `.then(f)`: append a step to the chain. -/
def chainThen (c : ChainModel) (f : CVal → Except String CVal) : ChainModel :=
  c ++ [f]

/-- Modelled from the spec: run the chain in order from a unit value; a step's
error short-circuits the remaining steps. -/
def runChain (c : ChainModel) : Except String CVal :=
  c.foldl
    (fun acc f =>
      match acc with
      | Except.ok v => f v
      | Except.error e => Except.error e)
    (Except.ok CVal.unitV)

/-- The read side of the storage collaborator: what `storage.read(ns, key)`
would resolve to (`none` = the item is missing and the future errors). -/
abbrev Storage : Type := String → String → Option MsgBytes

/-- `msgpack.loads` of a stored runlist payload: anything that is not a packed
runlist dictionary fails to decode into one. -/
def msgpackLoadsRunlist : MsgBytes → Except String (List (String × String))
  | MsgBytes.packedRunlist r => Except.ok r
  | MsgBytes.packedJson _ => Except.error "msgpack unpack error"
  | MsgBytes.packedBlob _ => Except.error "msgpack unpack error"

/-- Python dictionary assignment `d[k] = v`: update in place when the key
exists, append otherwise. -/
def dictSet : List (String × String) → String → String → List (String × String)
  | [], k, v => [(k, v)]
  | (k0, v0) :: rest, k, v =>
    if k0 = k then (k, v) :: rest else (k0, v0) :: dictSet rest k v

/-- `AddApplicationToRunlistAction.getRunlist`: execute a `RunlistViewAction`,
i.e. resolve `storage.read('runlists', self.name)`. -/
def getRunlistStep (storage : Storage) (name : String) : CVal → Except String CVal :=
  fun _ =>
    match storage "runlists" name with
    | some b => Except.ok (CVal.bytes b)
    | none => Except.error "item not found"

/-- `AddApplicationToRunlistAction.parseRunlist`: decode the previous step's
result with `msgpack.loads` and set `runlist[self.app] = self.profile`. -/
def parseRunlistStep (app profile : String) : CVal → Except String CVal
  | CVal.bytes b =>
    match msgpackLoadsRunlist b with
    | Except.ok r => Except.ok (CVal.runlist (dictSet r app profile))
    | Except.error e => Except.error e
  | _ => Except.error "TypeError"

/-- `AddApplicationToRunlistAction.uploadRunlist`: execute a
`RunlistUploadAction` with `runlist-raw` set to the merged runlist, which
packs it and issues `storage.write('runlists', self.name, ..., RUNLISTS_TAGS)`
(construction raises `ValueError` when the merged runlist is falsy). -/
def uploadRunlistStep (name : String) : CVal → Except String CVal
  | CVal.runlist r =>
    if r = [] then Except.error "Please specify runlist profile file path"
    else Except.ok (CVal.writeAck ⟨"runlists", name, MsgBytes.packedRunlist r, RUNLISTS_TAGS⟩)
  | _ => Except.error "TypeError"

/-- `AddApplicationToRunlistAction.execute`:
`ChainFactory().then(self.getRunlist).then(self.parseRunlist).then(self.uploadRunlist)`. -/
def addAppExecute (storage : Storage) (name app profile : String) : ChainModel :=
  chainThen (chainThen (chainThen chainFactory (getRunlistStep storage name))
    (parseRunlistStep app profile)) (uploadRunlistStep name)

/-- A concrete storage fixture holding one runlist, used to instantiate
theorems at concrete inputs. -/
def stor0 : Storage := fun ns key =>
  if ns = "runlists" && key = "main" then some (MsgBytes.packedRunlist [("old", "p1")])
  else none

/-- A concrete restart environment fixture: a healthy node whose status
snapshot knows no applications. -/
def env0 : RestartEnv :=
  { host := some "localhost", port := some "10053",
    infoRes := Except.ok (PyVal.dict [("apps", PyVal.dict [])]),
    pauseRes := Except.ok (PyVal.str "ok"),
    startRes := Except.ok (PyVal.str "ok") }

/-- A concrete configuration fixture for `CrashlogRemoveAllAction`: a name and
a stale `manifest` timestamp that the constructor must overwrite. -/
def cfg0 : Config := { name := some "echo", manifest := some "123456" }

/-! ## Lemmas about `pySplit` -/

/-- A separator-free string splits into the single segment it is. -/
theorem splitCharCore_no_sep (c : Char) (s : List Char) (h : c ∉ s) :
    splitCharCore c s = (s, []) := by
  induction s with
  | nil => rfl
  | cons x xs ih =>
    have hx : ¬ x = c := by
      intro he
      exact h (he ▸ List.mem_cons_self x xs)
    have hxs : c ∉ xs := fun hm => h (List.mem_cons_of_mem x hm)
    simp [splitCharCore, hx, ih hxs]

/-- Splitting `t ++ c :: b` with `c ∉ t` yields `t` as the first segment and
the split of `b` as the remaining segments. -/
theorem splitCharCore_append (c : Char) (t b : List Char) (ht : c ∉ t) :
    splitCharCore c (t ++ c :: b) = (t, (splitCharCore c b).1 :: (splitCharCore c b).2) := by
  induction t with
  | nil => simp [splitCharCore]
  | cons x xs ih =>
    have hx : ¬ x = c := by
      intro he
      exact ht (he ▸ List.mem_cons_self x xs)
    have hxs : c ∉ xs := fun hm => ht (List.mem_cons_of_mem x hm)
    simp [splitCharCore, hx, ih hxs]

/-- Python's `"t:b".split(':')` with colon-free `t` and `b` is `["t", "b"]`. -/
theorem pySplit_pair (t b : List Char) (ht : ':' ∉ t) (hb : ':' ∉ b) :
    pySplit ':' (t ++ ':' :: b) = [t, b] := by
  simp [pySplit, splitCharCore_append ':' t b ht, splitCharCore_no_sep ':' b hb]

/-! ## Claim C2 -/

/-- C2: for a list chunk with timestamps `{100, 200, 300}` and timestamp
filter `"200"`, `onChunk` issues exactly one secondary storage operation, with
key `"200:<identifier>"` rebuilt from the parsed timestamp and identifier of
the matching entry. -/
theorem crashlog_filter_issues_single_matching_op (a b c : List Char)
    (method : String) (ctime : List Char → List Char)
    (ha : ':' ∉ a) (hb : ':' ∉ b) (hc : ':' ∉ c) :
    (coordStep ctime (some ts200) method coordInit
        (CoordEv.upChunk [ts100 ++ ':' :: a, ts200 ++ ':' :: b, ts300 ++ ':' :: c])).issued
      = [⟨method, "crashlogs", ts200 ++ ':' :: b⟩] := by
  have e1 : pySplit ':' (ts100 ++ ':' :: a) = [ts100, a] :=
    pySplit_pair ts100 a (by decide) ha
  have e2 : pySplit ':' (ts200 ++ ':' :: b) = [ts200, b] :=
    pySplit_pair ts200 b (by decide) hb
  have e3 : pySplit ':' (ts300 ++ ':' :: c) = [ts300, c] :=
    pySplit_pair ts300 c (by decide) hc
  have hsp : splitPairs [ts100 ++ ':' :: a, ts200 ++ ':' :: b, ts300 ++ ':' :: c]
      = Except.ok [(ts100, a), (ts200, b), (ts300, c)] := by
    simp [splitPairs, e1, e2, e3]
  have f1 : flt (some ts200) ts100 = false := by decide
  have f2 : flt (some ts200) ts200 = true := by decide
  have f3 : flt (some ts200) ts300 = false := by decide
  have hpc : parseCrashlogs ctime (some ts200)
      [ts100 ++ ':' :: a, ts200 ++ ':' :: b, ts300 ++ ':' :: c]
      = Except.ok [⟨ts200, ctime ts200, b⟩] := by
    simp only [parseCrashlogs]
    rw [hsp]
    simp [List.filter, f1, f2, f3]
  simp [coordStep, hpc, coordInit]

/-- C2 witness: concrete identifiers `a`, `b`, `c`. -/
theorem crashlog_filter_single_matching_op_instance :
    (coordStep ct0 (some ts200) "read" coordInit
        (CoordEv.upChunk [ts100 ++ ':' :: ['a'], ts200 ++ ':' :: ['b'], ts300 ++ ':' :: ['c']])).issued
      = [⟨"read", "crashlogs", ts200 ++ ':' :: ['b']⟩] :=
  crashlog_filter_issues_single_matching_op ['a'] ['b'] ['c'] "read" ct0
    (by decide) (by decide) (by decide)

/-! ## Claim C6 -/

/-- C6: when the filtered entry list of the upstream chunk is empty, `onChunk`
fires `doneback` immediately (exactly once inside `onChunk`) and issues zero
secondary storage operations. -/
theorem crashlog_empty_filtered_list_completes_immediately
    (ctime : List Char → List Char) (timestamp : Option (List Char))
    (method : String) (chunk : List (List Char))
    (h : parseCrashlogs ctime timestamp chunk = Except.ok []) :
    (coordStep ctime timestamp method coordInit (CoordEv.upChunk chunk)).issued = []
    ∧ (coordStep ctime timestamp method coordInit (CoordEv.upChunk chunk)).donebacks = 1
    ∧ (coordStep ctime timestamp method coordInit (CoordEv.upChunk chunk)).messagesLeft = 0 := by
  simp [coordStep, h, coordInit]

/-- C6 witness: the empty listing chunk. -/
theorem crashlog_empty_list_completes_instance :
    (coordStep ct0 none "remove" coordInit (CoordEv.upChunk [])).issued = []
    ∧ (coordStep ct0 none "remove" coordInit (CoordEv.upChunk [])).donebacks = 1
    ∧ (coordStep ct0 none "remove" coordInit (CoordEv.upChunk [])).messagesLeft = 0 :=
  crashlog_empty_filtered_list_completes_immediately ct0 none "remove" [] rfl

/-! ## Claim C1 -/

/-- C1: the claim that `doneback` fires exactly once per fan-in run fails on
the code.  In the zero-entry case the upstream future delivers its empty chunk
and then its completion event; `onChunk` fires `doneback` once from the
empty-list branch and `onDone` fires it again, so the bound `doneback` runs
twice. -/
theorem crashlog_doneback_fires_twice_on_empty_list :
    (coordRun ct0 none "remove" [CoordEv.upChunk [], CoordEv.upDone]).donebacks = 2 := by
  rfl

/-! ## Claim C8 -/

/-- Helper: every `countable`-wrapped secondary delivery decrements
`messagesLeft` by exactly one, so a block of such deliveries subtracts its
length. -/
theorem foldl_countable_messagesLeft (ctime : List Char → List Char)
    (timestamp : Option (List Char)) (method : String) (p : List CoordEv)
    (hsec : ∀ e ∈ p, e = CoordEv.secCallback ∨ e = CoordEv.secErrorback) :
    ∀ s : CoordState,
      (p.foldl (coordStep ctime timestamp method) s).messagesLeft
        = s.messagesLeft - p.length := by
  induction p with
  | nil => intro s; simp
  | cons e rest ih =>
    intro s
    have hrest : ∀ x ∈ rest, x = CoordEv.secCallback ∨ x = CoordEv.secErrorback :=
      fun x hx => hsec x (List.mem_cons_of_mem e hx)
    rcases hsec e (List.mem_cons_self e rest) with he | he <;> subst he <;>
      simp [List.foldl_cons, coordStep, ih hrest] <;> omega

/-- C8: after `onChunk` sets `messagesLeft` to the number of filtered entries,
a run in which each issued secondary operation delivers at most one
callback-or-errorback event decrements the counter by exactly one per
delivery, and the counter never becomes negative. -/
theorem fanin_counter_monotone_nonnegative (ctime : List Char → List Char)
    (timestamp : Option (List Char)) (method : String)
    (chunk : List (List Char)) (entries : List CrashlogEntry)
    (hp : parseCrashlogs ctime timestamp chunk = Except.ok entries)
    (ds : List CoordEv)
    (hsec : ∀ e ∈ ds, e = CoordEv.secCallback ∨ e = CoordEv.secErrorback)
    (hlen : ds.length ≤ entries.length) :
    ∀ k, k ≤ ds.length →
      (coordRun ctime timestamp method (CoordEv.upChunk chunk :: ds.take k)).messagesLeft
          = (entries.length : Int) - k
      ∧ 0 ≤ (coordRun ctime timestamp method (CoordEv.upChunk chunk :: ds.take k)).messagesLeft := by
  intro k hk
  have hstep : (coordStep ctime timestamp method coordInit (CoordEv.upChunk chunk)).messagesLeft
      = (entries.length : Int) := by
    simp [coordStep, hp, coordInit]
  have hmem : ∀ e ∈ ds.take k, e = CoordEv.secCallback ∨ e = CoordEv.secErrorback :=
    fun e he => hsec e (List.take_subset k ds he)
  have hrun : (coordRun ctime timestamp method (CoordEv.upChunk chunk :: ds.take k)).messagesLeft
      = (entries.length : Int) - (ds.take k).length := by
    have := foldl_countable_messagesLeft ctime timestamp method (ds.take k) hmem
      (coordStep ctime timestamp method coordInit (CoordEv.upChunk chunk))
    simpa [coordRun, hstep] using this
  have hlentake : (ds.take k).length = k := by
    simp [List.length_take, Nat.min_eq_left hk]
  constructor
  · rw [hrun, hlentake]
  · rw [hrun, hlentake]
    have : k ≤ entries.length := le_trans hk hlen
    omega

/-- C8 witness: two entries, one successful and one erroring delivery. -/
theorem fanin_counter_instance :
    (coordRun ct0 none "read"
        (CoordEv.upChunk [ts100 ++ ':' :: ['a'], ts200 ++ ':' :: ['b']]
          :: List.take 2 [CoordEv.secCallback, CoordEv.secErrorback])).messagesLeft
      = ((2 : Nat) : Int) - 2
    ∧ 0 ≤ (coordRun ct0 none "read"
        (CoordEv.upChunk [ts100 ++ ':' :: ['a'], ts200 ++ ':' :: ['b']]
          :: List.take 2 [CoordEv.secCallback, CoordEv.secErrorback])).messagesLeft :=
  fanin_counter_monotone_nonnegative ct0 none "read"
    [ts100 ++ ':' :: ['a'], ts200 ++ ':' :: ['b']]
    [⟨ts100, ct0 ts100, ['a']⟩, ⟨ts200, ct0 ts200, ['b']⟩]
    rfl
    [CoordEv.secCallback, CoordEv.secErrorback]
    (by decide) (by decide) 2 (by decide)

/-! ## Claim C3 -/

/-- C3: for every Action variant with required parameters, construction
succeeds exactly when every required field is present and nonempty (for
`RunlistUploadAction`, when at least one runlist source is); a missing or
empty required field makes the constructor raise `ValueError` before
`execute` exists, so no required-parameter error can surface through a
`Future`. -/
theorem action_construction_validates_required_parameters (cfg : Config) :
    isSuccess (mkAppViewAction cfg) = truthy cfg.name
    ∧ isSuccess (mkAppUploadAction cfg)
        = (truthy cfg.name && truthy cfg.manifest && truthy cfg.package)
    ∧ isSuccess (mkAppRemoveAction cfg) = truthy cfg.name
    ∧ isSuccess (mkProfileUploadAction cfg) = (truthy cfg.name && truthy cfg.manifest)
    ∧ isSuccess (mkRunlistUploadAction cfg)
        = (truthy cfg.name && (truthy cfg.manifest || truthyRaw cfg.runlistRaw))
    ∧ isSuccess (mkAddApplicationToRunlistAction cfg)
        = (truthy cfg.name && truthy cfg.app && truthy cfg.profile)
    ∧ (∀ method, isSuccess (mkCrashlogViewOrRemoveAction method cfg) = truthy cfg.name)
    ∧ isSuccess (mkAppStartAction cfg) = (truthy cfg.name && truthy cfg.profile)
    ∧ isSuccess (mkAppPauseAction cfg) = truthy cfg.name := by
  refine ⟨?_, ?_, ?_, ?_, ?_, ?_, ?_, ?_, ?_⟩
  · cases h1 : truthy cfg.name <;> simp [mkAppViewAction, isSuccess, h1]
  · cases h1 : truthy cfg.name <;> cases h2 : truthy cfg.manifest <;>
      cases h3 : truthy cfg.package <;> simp [mkAppUploadAction, isSuccess, h1, h2, h3]
  · cases h1 : truthy cfg.name <;> simp [mkAppRemoveAction, isSuccess, h1]
  · cases h1 : truthy cfg.name <;> cases h2 : truthy cfg.manifest <;>
      simp [mkProfileUploadAction, isSuccess, h1, h2]
  · cases h1 : truthy cfg.name <;> cases h2 : truthy cfg.manifest <;>
      cases h3 : truthyRaw cfg.runlistRaw <;>
      simp [mkRunlistUploadAction, isSuccess, h1, h2, h3]
  · cases h1 : truthy cfg.name <;> cases h2 : truthy cfg.app <;>
      cases h3 : truthy cfg.profile <;>
      simp [mkAddApplicationToRunlistAction, isSuccess, h1, h2, h3]
  · intro method
    cases h1 : truthy cfg.name <;> simp [mkCrashlogViewOrRemoveAction, isSuccess, h1]
  · cases h1 : truthy cfg.name <;> cases h2 : truthy cfg.profile <;>
      simp [mkAppStartAction, isSuccess, h1, h2]
  · cases h1 : truthy cfg.name <;> simp [mkAppPauseAction, isSuccess, h1]

/-! ## Claim C10 -/

/-- Filtering with a `None` timestamp keeps every split pair. -/
theorem parseCrashlogs_none_keeps_all (ctime : List Char → List Char)
    (chunk : List (List Char)) (pairs : List (List Char × List Char))
    (hsp : splitPairs chunk = Except.ok pairs) :
    parseCrashlogs ctime none chunk
      = Except.ok (pairs.map (fun p => ⟨p.1, ctime p.1, p.2⟩)) := by
  simp only [parseCrashlogs]
  rw [hsp]
  have : pairs.filter (fun p => flt none p.1) = pairs :=
    List.filter_eq_self.mpr (fun a _ => rfl)
  simp [this]

/-- C10: `CrashlogRemoveAllAction` overwrites the timestamp filter with `None`
at construction, so for any configuration — even one carrying a `manifest`
timestamp value — its action has a pass-through-all filter, and its `onChunk`
issues one `remove` operation for every parsed crashlog entry. -/
theorem crashlog_remove_all_targets_every_entry (cfg : Config) (a : CrashlogActionS)
    (h : mkCrashlogRemoveAllAction cfg = Except.ok a)
    (ctime : List Char → List Char) (chunk : List (List Char))
    (pairs : List (List Char × List Char))
    (hsp : splitPairs chunk = Except.ok pairs) :
    a.timestamp = none ∧ a.method = "remove"
    ∧ (coordStep ctime (a.timestamp.map String.toList) a.method coordInit
          (CoordEv.upChunk chunk)).issued
        = pairs.map (fun p => ⟨"remove", "crashlogs", p.1 ++ ':' :: p.2⟩) := by
  have ha : a.timestamp = none ∧ a.method = "remove" := by
    by_cases h1 : truthy cfg.name = true
    · simp [mkCrashlogRemoveAllAction, mkCrashlogViewOrRemoveAction, h1] at h
      rw [← h]
      exact ⟨rfl, rfl⟩
    · simp [mkCrashlogRemoveAllAction, mkCrashlogViewOrRemoveAction, h1] at h
  refine ⟨ha.1, ha.2, ?_⟩
  rw [ha.1, ha.2]
  have hpc := parseCrashlogs_none_keeps_all ctime chunk pairs hsp
  simp [coordStep, hpc, coordInit, List.map_map, Function.comp]

/-- C10 witness: a configuration that carries a stale `manifest` timestamp. -/
theorem crashlog_remove_all_instance :
    (⟨"echo", none, "remove"⟩ : CrashlogActionS).timestamp = none
    ∧ (⟨"echo", none, "remove"⟩ : CrashlogActionS).method = "remove"
    ∧ (coordStep ct0 ((none : Option String).map String.toList) "remove" coordInit
          (CoordEv.upChunk [['1', ':', 'a']])).issued
        = [(['1'], ['a'])].map (fun p => ⟨"remove", "crashlogs", p.1 ++ ':' :: p.2⟩) := by
  have h := crashlog_remove_all_targets_every_entry cfg0 ⟨"echo", none, "remove"⟩
    rfl ct0 [['1', ':', 'a']] [(['1'], ['a'])] rfl
  exact ⟨h.1, h.2.1, h.2.2⟩

/-! ## Claim C4 -/

/-- C4: when the fetched status snapshot has no profile entry for the
application (a `KeyError` from `info['apps'][name]['profile']`) and no
explicit profile was supplied, the restart chain fails with the `ToolsError`
`Application "<name>" is not running and profile not specified`, and neither
a pause nor a start call is issued. -/
theorem restart_missing_profile_fails_with_tools_error (name : String)
    (profile : Option String) (env : RestartEnv) (info : PyVal)
    (hprof : truthy profile = false)
    (hinfo : env.infoRes = Except.ok info)
    (habs : lookupProfile info name = Except.error PyErr.keyError) :
    (doAction name profile env).1 = [RestartCall.infoCall]
    ∧ (doAction name profile env).2
        = Except.error (RestartErr.toolsError (notRunningMsg name)) := by
  simp [doAction, hinfo, hprof, habs]

/-- C4 witness: a snapshot whose `apps` dictionary is empty and no supplied
profile. -/
theorem restart_missing_profile_instance :
    (doAction "echo" none env0).1 = [RestartCall.infoCall]
    ∧ (doAction "echo" none env0).2
        = Except.error (RestartErr.toolsError (notRunningMsg "echo")) :=
  restart_missing_profile_fails_with_tools_error "echo" none env0
    (PyVal.dict [("apps", PyVal.dict [])]) rfl rfl rfl

/-! ## Claim C9 -/

/-- C9: every status chunk delivered to `AppCheckAction`'s inner `Future`
invokes the bound callback exactly once with the one-entry dictionary
`{name: state}`; when the snapshot's `apps` dictionary is absent or has no
entry for the application, the reported state is `'stopped or missing'`, no
exception escapes and the errorback is never invoked. -/
theorem appcheck_absent_app_reports_stopped (name : String)
    (es : List (String × PyVal))
    (h : pyLookup es "apps" = none
      ∨ ∃ apps, pyLookup es "apps" = some (PyVal.dict apps) ∧ pyLookup apps name = none) :
    (appCheckOnChunk name (PyVal.dict es)).callbackCalls
        = [[(name, PyVal.str "stopped or missing")]]
    ∧ (appCheckOnChunk name (PyVal.dict es)).errorbackCalls = 0
    ∧ (appCheckOnChunk name (PyVal.dict es)).raised = false
    ∧ ∀ chunk : PyVal, ∃ st,
        (appCheckOnChunk name chunk).callbackCalls = [[(name, st)]] := by
  have hatt : appCheckAttempt name (PyVal.dict es) = Except.error PyErr.keyError := by
    rcases h with h | ⟨apps, h1, h2⟩
    · simp [appCheckAttempt, pyIndex, h]
    · simp [appCheckAttempt, pyIndex, h1, h2]
  refine ⟨?_, ?_, ?_, ?_⟩
  · simp [appCheckOnChunk, hatt]
  · simp [appCheckOnChunk, hatt]
  · simp [appCheckOnChunk, hatt]
  · intro chunk
    cases hA : appCheckAttempt name chunk with
    | ok st => exact ⟨st, by simp [appCheckOnChunk, hA]⟩
    | error e =>
      cases e with
      | keyError =>
        exact ⟨PyVal.str "stopped or missing", by simp [appCheckOnChunk, hA]⟩
      | typeError =>
        exact ⟨PyVal.str "stopped or missing", by simp [appCheckOnChunk, hA]⟩

/-- C9 witness: a snapshot with no `apps` key at all. -/
theorem appcheck_absent_app_instance :
    (appCheckOnChunk "echo" (PyVal.dict [])).callbackCalls
        = [[("echo", PyVal.str "stopped or missing")]]
    ∧ (appCheckOnChunk "echo" (PyVal.dict [])).errorbackCalls = 0
    ∧ (appCheckOnChunk "echo" (PyVal.dict [])).raised = false
    ∧ ∀ chunk : PyVal, ∃ st,
        (appCheckOnChunk "echo" chunk).callbackCalls = [[("echo", st)]] :=
  appcheck_absent_app_reports_stopped "echo" [] (Or.inl rfl)

/-! ## Claim C5 -/

/-- A merged runlist is never the empty dictionary. -/
theorem dictSet_ne_nil (r : List (String × String)) (k v : String) :
    dictSet r k v ≠ [] := by
  cases r with
  | nil => simp [dictSet]
  | cons p rest =>
    cases p with
    | mk k0 v0 =>
      simp only [dictSet]
      split <;> simp

/-- C5: `AddApplicationToRunlistAction.execute` returns a chain of exactly the
three dependent steps `getRunlist`, `parseRunlist`, `uploadRunlist` in that
order, and running it reads the stored runlist, merges `app -> profile` into
the value the read step resolved to, and writes the merged runlist back. -/
theorem add_app_to_runlist_chain_three_steps (storage : Storage)
    (name app profile : String) (r : List (String × String))
    (h : storage "runlists" name = some (MsgBytes.packedRunlist r)) :
    addAppExecute storage name app profile
        = [getRunlistStep storage name, parseRunlistStep app profile, uploadRunlistStep name]
    ∧ (addAppExecute storage name app profile).length = 3
    ∧ runChain (addAppExecute storage name app profile)
        = Except.ok (CVal.writeAck
            ⟨"runlists", name, MsgBytes.packedRunlist (dictSet r app profile), RUNLISTS_TAGS⟩) := by
  refine ⟨rfl, rfl, ?_⟩
  simp [runChain, addAppExecute, chainThen, chainFactory, getRunlistStep, h,
    parseRunlistStep, msgpackLoadsRunlist, uploadRunlistStep, dictSet_ne_nil]

/-- C5 witness: the fixture storage holding the runlist `main`. -/
theorem add_app_to_runlist_chain_instance :
    addAppExecute stor0 "main" "app1" "prof1"
        = [getRunlistStep stor0 "main", parseRunlistStep "app1" "prof1", uploadRunlistStep "main"]
    ∧ (addAppExecute stor0 "main" "app1" "prof1").length = 3
    ∧ runChain (addAppExecute stor0 "main" "app1" "prof1")
        = Except.ok (CVal.writeAck
            ⟨"runlists", "main", MsgBytes.packedRunlist (dictSet [("old", "p1")] "app1" "prof1"),
             RUNLISTS_TAGS⟩) :=
  add_app_to_runlist_chain_three_steps stor0 "main" "app1" "prof1" [("old", "p1")] rfl

/-! ## Claim C7 -/

/-- C7: for `AppUploadAction.execute` and `ProfileUploadAction.execute`, an
unreadable source file, a file that does not parse as json, or (for the
package) a file that is not a tar archive makes the encode step raise a
`CocaineError` synchronously, and no remote write call is issued. -/
theorem upload_encode_failure_raises_before_write (name mp pp prof ppath : String)
    (mf : JsonFile) (pf : PkgFile) (pj : JsonFile)
    (hbad : mf = JsonFile.unreadable ∨ mf = JsonFile.invalid
      ∨ pf = PkgFile.unreadable ∨ pf = PkgFile.notTar)
    (hpj : pj = JsonFile.unreadable ∨ pj = JsonFile.invalid) :
    ((appUploadExecute name mp pp mf pf).1 = []
      ∧ ∃ e, (appUploadExecute name mp pp mf pf).2 = Except.error e)
    ∧ ((profileUploadExecute prof ppath pj).1 = []
      ∧ ∃ e, (profileUploadExecute prof ppath pj).2 = Except.error e) := by
  constructor
  · rcases hbad with h | h | h | h
    · subst h; simp [appUploadExecute, encodeJson]
    · subst h; simp [appUploadExecute, encodeJson]
    · subst h; cases mf <;> simp [appUploadExecute, encodeJson, encodePackage]
    · subst h; cases mf <;> simp [appUploadExecute, encodeJson, encodePackage]
  · rcases hpj with h | h <;> subst h <;> simp [profileUploadExecute, encodeJson]

/-- C7 witness: a manifest that is not parseable json and an unreadable
profile file. -/
theorem upload_encode_failure_instance :
    ((appUploadExecute "echo" "m.json" "p.tar" JsonFile.invalid (PkgFile.tar "data")).1 = []
      ∧ ∃ e, (appUploadExecute "echo" "m.json" "p.tar" JsonFile.invalid (PkgFile.tar "data")).2
          = Except.error e)
    ∧ ((profileUploadExecute "default" "prof.json" JsonFile.unreadable).1 = []
      ∧ ∃ e, (profileUploadExecute "default" "prof.json" JsonFile.unreadable).2
          = Except.error e) :=
  upload_encode_failure_raises_before_write "echo" "m.json" "p.tar" "default" "prof.json"
    JsonFile.invalid (PkgFile.tar "data") JsonFile.unreadable
    (Or.inr (Or.inl rfl)) (Or.inl rfl)
